import Mathlib

/-!
Shallow embedding of the analysis core of the Resume-Builder repository:
the `OpenAIService` result parser with its fallback path
(`parseAnalysisResult`, `createFallbackResult`, `extractListItems`,
`extractKeywordMatch`, `isAvailable`) and the `AIServiceRegistry`
dispatch methods (`analyzeResumeText`, `analyzeResume`).

Strings are modelled by Lean `String` (the inputs of interest are
sequences of Unicode code points; JavaScript string indexing by UTF-16
code units agrees with code-point indexing on the inputs considered
here).  JavaScript `number` values are modelled by `Int`: every numeric
literal appearing in the analysis core is an integer, and the claims
under study only concern integer values.  Fallible operations return
`Except String` (a thrown `Error e` is modelled by `Except.error e.message`,
since every error in this code is a plain `Error` distinguished only by
its message).
-/

/-- JavaScript whitespace characters relevant to `String.prototype.trim`
and the regex class `\s`, restricted to the ASCII range (the inputs under
study are ASCII; the exotic Unicode whitespace code points are omitted). -/
def jsWhitespace (c : Char) : Bool :=
  c = ' ' || c = '\t' || c = '\n' || c = '\r' || c = '\x0b' || c = '\x0c'

/-- Model of `String.prototype.trim`: drop leading and trailing whitespace. -/
def jsTrim (s : String) : String :=
  ⟨((s.data.dropWhile jsWhitespace).reverse.dropWhile jsWhitespace).reverse⟩

/-- Model of `String.prototype.toLowerCase` (ASCII case folding). -/
def lowerStr (s : String) : String :=
  ⟨s.data.map Char.toLower⟩

/-- Model of `String.prototype.includes`: `pat` occurs as a contiguous
substring of `s`. -/
def containsSub (s pat : String) : Bool :=
  s.data.tails.any (fun t => pat.data.isPrefixOf t)

/-- Model of `String.prototype.startsWith` for a literal argument. -/
def jsStartsWith (s pat : String) : Bool :=
  pat.data.isPrefixOf s.data

/-- Numeric value of a digit run, as `parseInt` computes it on an
all-digit string. -/
def digitsToNat (ds : List Char) : Nat :=
  ds.foldl (fun n c => 10 * n + (c.toNat - '0'.toNat)) 0

/-- JSON value model.  Modelled from the spec: the repository calls the
ECMAScript builtin `JSON.parse`, which is not part of the repository
sources; JSON numbers are restricted to integers here (every number in
the claims under study is an integer). -/
inductive Json where
  | null : Json
  | bool : Bool → Json
  | num : Int → Json
  | str : String → Json
  | arr : List Json → Json
  | obj : List (String × Json) → Json

/-- JavaScript truthiness of a JSON value (`undefined`, i.e. an absent
field, is handled at the use site via `Option`). -/
def truthy : Json → Bool
  | Json.null => false
  | Json.bool b => b
  | Json.num n => n ≠ 0
  | Json.str s => s ≠ ""
  | Json.arr _ => true
  | Json.obj _ => true

/-- Property read `parsed.k` on a decoded JSON value: on an object, the
last binding for the key wins (as duplicate keys behave in `JSON.parse`);
`none` models `undefined`. -/
def getField (j : Json) (k : String) : Option Json :=
  match j with
  | Json.obj kvs => (kvs.reverse.find? (fun p => p.1 = k)).map (fun p => p.2)
  | _ => none

/-- JSON whitespace accepted between tokens by `JSON.parse`. -/
def jsonWs (c : Char) : Bool :=
  c = ' ' || c = '\t' || c = '\n' || c = '\r'

/-- Skip JSON whitespace. -/
def skipWs (cs : List Char) : List Char :=
  cs.dropWhile jsonWs

/-- Translation of a single-character escape sequence in a JSON string
literal (`\uXXXX` escapes are not modelled; see `jsonDecode`). -/
def escChar (e : Char) : Option Char :=
  if e = '"' ∨ e = '\\' ∨ e = '/' then some e
  else if e = 'n' then some '\n'
  else if e = 't' then some '\t'
  else if e = 'r' then some '\r'
  else if e = 'b' then some '\x08'
  else if e = 'f' then some '\x0c'
  else none

/-- Body of a JSON string literal after the opening quote: returns the
decoded characters and the remainder after the closing quote. -/
def strBody : List Char → Option (List Char × List Char)
  | [] => none
  | '"' :: rest => some ([], rest)
  | '\\' :: e :: rest =>
    match escChar e with
    | some c => (strBody rest).map (fun p => (c :: p.1, p.2))
    | none => none
  | c :: rest => (strBody rest).map (fun p => (c :: p.1, p.2))

/-- Integer numeral: a nonempty digit run not followed by a fraction or
exponent part (fractional and exponent numerals are treated as decode
failures in this model; see `jsonDecode`). -/
def parseDigits (cs : List Char) : Option (Nat × List Char) :=
  let ds := cs.takeWhile Char.isDigit
  if ds.isEmpty then none
  else
    match cs.drop ds.length with
    | '.' :: _ => none
    | 'e' :: _ => none
    | 'E' :: _ => none
    | rest => some (digitsToNat ds, rest)

mutual

/-- Recursive-descent JSON value parser, fuel-bounded. -/
def parseVal : Nat → List Char → Option (Json × List Char)
  | 0, _ => none
  | fuel + 1, cs =>
    match skipWs cs with
    | 'n' :: 'u' :: 'l' :: 'l' :: rest => some (Json.null, rest)
    | 't' :: 'r' :: 'u' :: 'e' :: rest => some (Json.bool true, rest)
    | 'f' :: 'a' :: 'l' :: 's' :: 'e' :: rest => some (Json.bool false, rest)
    | '"' :: rest => (strBody rest).map (fun p => (Json.str ⟨p.1⟩, p.2))
    | '[' :: rest =>
      (match skipWs rest with
       | ']' :: r => some (Json.arr [], r)
       | r => (parseElems fuel r).map (fun p => (Json.arr p.1, p.2)))
    | '\x7b' :: rest =>
      (match skipWs rest with
       | '\x7d' :: r => some (Json.obj [], r)
       | r => (parseMembers fuel r).map (fun p => (Json.obj p.1, p.2)))
    | '-' :: rest =>
      (parseDigits rest).map (fun p => (Json.num (-(p.1 : Int)), p.2))
    | c :: rest =>
      if c.isDigit then (parseDigits (c :: rest)).map (fun p => (Json.num (p.1 : Int), p.2))
      else none
    | [] => none

/-- Comma-separated array elements up to the closing bracket. -/
def parseElems : Nat → List Char → Option (List Json × List Char)
  | 0, _ => none
  | fuel + 1, cs =>
    match parseVal fuel cs with
    | none => none
    | some (v, r) =>
      match skipWs r with
      | ']' :: r2 => some ([v], r2)
      | ',' :: r2 =>
        (match parseElems fuel r2 with
         | none => none
         | some (vs, r3) => some (v :: vs, r3))
      | _ => none

/-- Comma-separated object members up to the closing brace. -/
def parseMembers : Nat → List Char → Option (List (String × Json) × List Char)
  | 0, _ => none
  | fuel + 1, cs =>
    match skipWs cs with
    | '"' :: rest =>
      (match strBody rest with
       | none => none
       | some (k, r) =>
         match skipWs r with
         | ':' :: r2 =>
           (match parseVal fuel r2 with
            | none => none
            | some (v, r3) =>
              match skipWs r3 with
              | '\x7d' :: r4 => some ([(⟨k⟩, v)], r4)
              | ',' :: r4 =>
                (match parseMembers fuel r4 with
                 | none => none
                 | some (ms, r5) => some ((⟨k⟩, v) :: ms, r5))
              | _ => none)
         | _ => none)
    | _ => none

end

/-- Modelled from the spec: the ECMAScript builtin `JSON.parse` (not part
of the repository sources), as the spec's "attempt to decode it as
structured data".  `none` models a thrown `SyntaxError`.  The model
covers null, booleans, integer numerals, strings with single-character
escapes, arrays and objects; `\u` escapes and fraction/exponent numerals
are treated as decode failures, and numeral well-formedness checks
beyond digit runs are omitted. -/
def jsonDecode (s : String) : Option Json :=
  match parseVal (s.length + 1) s.data with
  | some (j, rest) => if (skipWs rest).isEmpty then some j else none
  | none => none

/-- The canonical output entity (`AnalysisResult` in `types.ts`).  Fields
read off an untyped decoded JSON value keep the dynamic `Json` type,
since the TypeScript code performs no runtime type check beyond the
defensive defaults in `parseAnalysisResult`; `keywordMatch` is always a
number by construction and is kept as `Int`. -/
structure AnalysisResult where
  summary : Json
  strengths : List Json
  improvements : List Json
  keywordMatch : Int
  skillGaps : List Json
  recommendations : List Json
  optimizedContent : Json

/-- JavaScript `v || dflt` on a possibly-absent property read. -/
def jsOr (v : Option Json) (dflt : Json) : Json :=
  match v with
  | some j => if truthy j then j else dflt
  | none => dflt

/-- `Array.isArray(v) ? v : []` on a possibly-absent property read. -/
def getArr (v : Option Json) : List Json :=
  match v with
  | some (Json.arr l) => l
  | _ => []

/-- `typeof v === 'number' ? v : 0` on a possibly-absent property read. -/
def getNum (v : Option Json) : Int :=
  match v with
  | some (Json.num n) => n
  | _ => 0

/-- The object literal built by `OpenAIService.parseAnalysisResult`
(part_009 lines 98-106) from a successfully decoded JSON value. -/
def buildStructured (parsed : Json) : AnalysisResult :=
  { summary := jsOr (getField parsed "summary") (Json.str "Analysis completed")
    strengths := getArr (getField parsed "strengths")
    improvements := getArr (getField parsed "improvements")
    keywordMatch := getNum (getField parsed "keywordMatch")
    skillGaps := getArr (getField parsed "skillGaps")
    recommendations := getArr (getField parsed "recommendations")
    optimizedContent := jsOr (getField parsed "optimizedContent") (Json.str "") }

/-- The regex match `result.match(/\x7b[\s\S]*\x7d/)` in
`parseAnalysisResult`: the substring from the first brace-open to the
last brace-close, when the latter lies after the former. -/
def jsonRegion (s : String) : Option String :=
  match s.data.dropWhile (fun c => c ≠ '\x7b') with
  | [] => none
  | t =>
    match t.reverse.dropWhile (fun c => c ≠ '\x7d') with
    | [] => none
    | r => some ⟨r.reverse⟩

/-- Model of `String.prototype.split('\n')`. -/
def splitOnChar (sep : Char) : List Char → List (List Char)
  | [] => [[]]
  | c :: rest =>
    if c = sep then [] :: splitOnChar sep rest
    else
      match splitOnChar sep rest with
      | [] => [[c]]
      | l :: ls => (c :: l) :: ls

/-- The line list `text.split('\n')` used by `extractListItems`. -/
def splitLines (text : String) : List String :=
  (splitOnChar '\n' text.data).map (fun l => ⟨l⟩)

/-- The test `trimmed.match(/^\d+\./)`: a nonempty digit run followed by
a dot. -/
def startsNumDot (cs : List Char) : Bool :=
  let ds := cs.takeWhile Char.isDigit
  !ds.isEmpty && ((cs.drop ds.length).head? = some '.')

/-- The guard of the push branch of `extractListItems`: the trimmed line
starts with `-`, `•`, or digits followed by a dot. -/
def isItemStart (trimmed : String) : Bool :=
  jsStartsWith trimmed "-" || jsStartsWith trimmed "•" || startsNumDot trimmed.data

/-- A character consumed by `trimmed.replace(/^[-•\d.\s]+/, '')`. -/
def stripChar (c : Char) : Bool :=
  c = '-' || c = '•' || c.isDigit || c = '.' || jsWhitespace c

/-- The marker strip `trimmed.replace(/^[-•\d.\s]+/, '')`. -/
def stripMarker (trimmed : String) : String :=
  ⟨trimmed.data.dropWhile stripChar⟩

/-- The `for (const line of lines)` loop of `extractListItems`, with the
`capturing` flag and accumulated `items` made explicit.  A keyword line
sets `capturing` and is itself skipped (`continue`); while capturing, an
item-shaped line is pushed stripped of its marker, a blank line (or a
full item list) breaks, and any other line is skipped. -/
def extractLoop (keyword : String) : List String → Bool → List String → List String
  | [], _, items => items
  | line :: rest, capturing, items =>
    if containsSub (lowerStr line) keyword then
      extractLoop keyword rest true items
    else if capturing then
      let trimmed := jsTrim line
      if isItemStart trimmed then
        extractLoop keyword rest capturing (items ++ [stripMarker trimmed])
      else if trimmed.length = 0 ∨ 5 ≤ items.length then
        items
      else
        extractLoop keyword rest capturing items
    else
      extractLoop keyword rest capturing items

/-- `OpenAIService.extractListItems` (part_009 lines 128-150). -/
def extractListItems (text keyword : String) : List String :=
  (extractLoop keyword (splitLines text) false []).take 5

/-- The regex search `text.match(/(\d+)%/)` followed by `parseInt` on the
captured group: the value of the first maximal digit run that is
immediately followed by a percent sign. -/
def findPercent : List Char → Option Nat
  | [] => none
  | c :: rest =>
    if c.isDigit then
      let ds := (c :: rest).takeWhile Char.isDigit
      if ((c :: rest).drop ds.length).head? = some '%' then some (digitsToNat ds)
      else findPercent rest
    else findPercent rest

/-- The fixed positive-word list of `extractKeywordMatch`. -/
def positiveWords : List String := ["strong", "good", "excellent", "well", "effective"]

/-- The fixed negative-word list of `extractKeywordMatch`. -/
def negativeWords : List String := ["weak", "poor", "missing", "lack", "insufficient"]

/-- `OpenAIService.extractKeywordMatch` (part_009 lines 152-171): use the
first literal `<digits>%` integer when present, otherwise start from 50,
add 10 for each positive word contained in the lowercased text, subtract
10 for each negative word contained, and clamp to [0,100]. -/
def extractKeywordMatch (text : String) : Int :=
  match findPercent text.data with
  | some n => (n : Int)
  | none =>
    let lower := lowerStr text
    let score : Int := 50
    let score := positiveWords.foldl
      (fun sc w => if containsSub lower w then sc + 10 else sc) score
    let score := negativeWords.foldl
      (fun sc w => if containsSub lower w then sc - 10 else sc) score
    max 0 (min 100 score)

/-- `OpenAIService.createFallbackResult` (part_009 lines 116-126). -/
def createFallbackResult (text : String) : AnalysisResult :=
  { summary := Json.str "Resume analysis completed. The AI provided detailed feedback that may need manual review."
    strengths := (extractListItems text "strength").map Json.str
    improvements := (extractListItems text "improv").map Json.str
    keywordMatch := extractKeywordMatch text
    skillGaps := (extractListItems text "skill").map Json.str
    recommendations := (extractListItems text "recommend").map Json.str
    optimizedContent := Json.str (⟨text.data.take 500⟩ ++ "...") }

/-- `OpenAIService.parseAnalysisResult` (part_009 lines 90-114): find a
brace-delimited region and decode it; on success build the structured
result, and on a missing region or a decode failure (the caught
`parseError`) fall back to `createFallbackResult` on the whole raw
text. -/
def parseAnalysisResult (result : String) : AnalysisResult :=
  match jsonRegion result with
  | some sub =>
    match jsonDecode sub with
    | some parsed => buildStructured parsed
    | none => createFallbackResult result
  | none => createFallbackResult result

/-- `OpenAIService.isAvailable` (part_009 lines 18-20):
`!!process.env.OPENAI_API_KEY`, where the environment is read at call
time.  `none` models an unset variable; a set variable carries its
string value, and the empty string is falsy. -/
def isAvailable (env : Option String) : Bool :=
  match env with
  | some s => s ≠ ""
  | none => false

/-- `OpenAIService.analyze` (part_009 lines 22-56).  The environment is a
per-call parameter (the code re-reads `process.env` through
`isAvailable` on every call), and the network round trip
(`chat.completions.create` followed by the `choices[0]?.message?.content`
read) is abstracted as the `net` parameter, a function of the two texts
the prompt embeds: `Except.error m` models a rejected call with message
`m`, and `Except.ok content` the returned text, with a missing or empty
content modelled as `""`.  The availability check sits outside the try
block, so its error keeps its message; everything thrown inside is
re-thrown with the `OpenAI analysis failed: ` prefix. -/
def openaiAnalyze (env : Option String) (net : String → String → Except String String)
    (resumeContent jobDescription : String) : Except String AnalysisResult :=
  if isAvailable env = false then
    Except.error "OpenAI service is not available. Please check API key configuration."
  else
    match net resumeContent jobDescription with
    | Except.error m => Except.error ("OpenAI analysis failed: " ++ m)
    | Except.ok content =>
      if content = "" then
        Except.error ("OpenAI analysis failed: " ++ "Empty response from OpenAI")
      else
        Except.ok (parseAnalysisResult content)

/-- A registered provider as the registry sees it: a display name, the
result of its availability check at dispatch time, and its analyze
function (which may throw, modelled by `Except.error`). -/
structure Provider where
  name : String
  available : Bool
  analyze : String → String → Except String AnalysisResult

/-- `this.services.get(serviceId)` on the registry's provider map,
modelled as first-match lookup in an association list (keys are unique
in the map the constructor builds). -/
def findService (services : List (String × Provider)) (serviceId : String) : Option Provider :=
  (services.find? (fun p => p.1 = serviceId)).map (fun p => p.2)

/-- `AIServiceRegistry.analyzeResumeText` (ai-service-registry.ts lines
66-90): unknown key and unavailable provider fail before the try block
with unprefixed messages; inside the try block, empty-after-trim inputs
throw validation errors and otherwise the provider is invoked, and every
error thrown inside is caught and replaced by a generic error with the
`Analysis failed: ` prefix. -/
def analyzeResumeText (services : List (String × Provider))
    (serviceId resumeText jobDescriptionText : String) : Except String AnalysisResult :=
  match findService services serviceId with
  | none => Except.error ("AI service \x27" ++ serviceId ++ "\x27 not found")
  | some service =>
    if service.available = false then
      Except.error ("AI service \x27" ++ serviceId ++ "\x27 is not available")
    else
      let body : Except String AnalysisResult :=
        if jsTrim resumeText = "" then
          Except.error "Resume text cannot be empty"
        else if jsTrim jobDescriptionText = "" then
          Except.error "Job description text cannot be empty"
        else
          service.analyze resumeText jobDescriptionText
      match body with
      | Except.ok r => Except.ok r
      | Except.error m => Except.error ("Analysis failed: " ++ m)

/-- `AIServiceRegistry.analyzeResume` (ai-service-registry.ts lines
36-64), the file-path variant.  `FileProcessor.extractText` performs
file IO against third-party parsers and is abstracted as the
`extractText` parameter (`Except.error m` models a thrown extraction
error). -/
def analyzeResume (services : List (String × Provider))
    (extractText : String → Except String String)
    (serviceId resumeFilePath jobDescFilePath : String) : Except String AnalysisResult :=
  match findService services serviceId with
  | none => Except.error ("AI service \x27" ++ serviceId ++ "\x27 not found")
  | some service =>
    if service.available = false then
      Except.error ("AI service \x27" ++ serviceId ++ "\x27 is not available")
    else
      let body : Except String AnalysisResult :=
        match extractText resumeFilePath with
        | Except.error m => Except.error m
        | Except.ok resumeContent =>
          match extractText jobDescFilePath with
          | Except.error m => Except.error m
          | Except.ok jobDescription =>
            if jsTrim resumeContent = "" then
              Except.error "Resume file appears to be empty or unreadable"
            else if jsTrim jobDescription = "" then
              Except.error "Job description file appears to be empty or unreadable"
            else
              service.analyze resumeContent jobDescription
      match body with
      | Except.ok r => Except.ok r
      | Except.error m => Except.error ("Analysis failed: " ++ m)

/-- Number of occurrences of `w` in `s`: starting positions at which `w`
appears as a contiguous substring. -/
def countOccurrences (s w : String) : Nat :=
  (s.data.tails.filter (fun t => w.data.isPrefixOf t)).length

/-- The fallback score as the claim words it: the first literal
`<digits>%` integer when present; otherwise the baseline 50 nudged by
+10 per *occurrence* of each positive word and -10 per occurrence of
each negative word in the lowercased text (multiplicity counted),
clamped to [0,100].  Stated from the spec for comparison with
`extractKeywordMatch`. -/
def claimKeywordMatch (text : String) : Int :=
  match findPercent text.data with
  | some n => (n : Int)
  | none =>
    let lower := lowerStr text
    let pos := ((positiveWords.map (fun w => (countOccurrences lower w : Int))).sum)
    let neg := ((negativeWords.map (fun w => (countOccurrences lower w : Int))).sum)
    max 0 (min 100 (50 + 10 * pos - 10 * neg))

/-- The fallback score as the amended claim words it: the first literal
`<digits>%` integer when present; otherwise the baseline 50 nudged by
+10 for each positive word that occurs at least once in the lowercased
text and -10 for each negative word that occurs at least once (presence,
not multiplicity), clamped to [0,100]. -/
def amendedKeywordMatch (text : String) : Int :=
  match findPercent text.data with
  | some n => (n : Int)
  | none =>
    let lower := lowerStr text
    let pos := (positiveWords.filter (fun w => 1 ≤ countOccurrences lower w)).length
    let neg := (negativeWords.filter (fun w => 1 ≤ countOccurrences lower w)).length
    max 0 (min 100 (50 + 10 * (pos : Int) - 10 * (neg : Int)))

/-- A registered, available demonstration provider whose analyze call
throws; used to instantiate registry theorems at concrete inputs. -/
def demoProvider : Provider :=
  { name := "Demo", available := true, analyze := fun _ _ => Except.error "provider failure" }

/-- A registered but unavailable demonstration provider. -/
def demoOffline : Provider :=
  { name := "Demo", available := false, analyze := fun _ _ => Except.error "provider failure" }

/-- Helper: a 5-truncated list has length at most 5. -/
theorem length_take_five_le {α : Type} (l : List α) : (l.take 5).length ≤ 5 := by
  rw [List.length_take]; exact min_le_left _ _

/-- C5: for every provider key not registered in the registry and all
text arguments (valid or not), `analyzeResumeText` fails with the
not-found error.  The conclusion holds for arbitrary texts and never
consults a provider's availability check or analyze function, so the
unregistered-key check is decided before availability and before input
validation. -/
theorem analyzeResumeText_unregistered (services : List (String × Provider))
    (serviceId resumeText jobDescriptionText : String)
    (h : findService services serviceId = none) :
    analyzeResumeText services serviceId resumeText jobDescriptionText
      = Except.error ("AI service \x27" ++ serviceId ++ "\x27 not found") := by
  simp [analyzeResumeText, h]

/-- Witness for C5: the empty registry at whitespace-only inputs. -/
theorem analyzeResumeText_unregistered_witness :
    analyzeResumeText [] "openai" "" "   "
      = Except.error ("AI service \x27" ++ "openai" ++ "\x27 not found") :=
  analyzeResumeText_unregistered [] "openai" "" "   " rfl

/-- C6: for every registered and available provider, `analyzeResumeText`
fails with the empty-resume validation error when `resumeText` trims to
empty (whatever the job text), and with the empty-job validation error
when `resumeText` is non-blank and `jobDescriptionText` trims to empty.
The provider `svc` is universally quantified and its `analyze` field is
never applied in the conclusion, so the provider's analyze function is
not invoked.  The validation error surfaces with the registry's
`Analysis failed: ` catch-block prefix, since the throw happens inside
the try block. -/
theorem analyzeResumeText_empty_inputs (services : List (String × Provider))
    (serviceId resumeText jobDescriptionText : String) (svc : Provider)
    (hfind : findService services serviceId = some svc)
    (havail : svc.available = true) :
    (jsTrim resumeText = "" →
      analyzeResumeText services serviceId resumeText jobDescriptionText
        = Except.error ("Analysis failed: " ++ "Resume text cannot be empty")) ∧
    (jsTrim resumeText ≠ "" → jsTrim jobDescriptionText = "" →
      analyzeResumeText services serviceId resumeText jobDescriptionText
        = Except.error ("Analysis failed: " ++ "Job description text cannot be empty")) := by
  constructor
  · intro hr
    simp [analyzeResumeText, hfind, havail, hr]
  · intro hr hj
    simp [analyzeResumeText, hfind, havail, hr, hj]

/-- Witness for C6: a registered available provider, once with a
whitespace-only resume and once with a whitespace-only job text. -/
theorem analyzeResumeText_empty_inputs_witness :
    analyzeResumeText [("demo", demoProvider)] "demo" "   " "Job"
      = Except.error ("Analysis failed: " ++ "Resume text cannot be empty") ∧
    analyzeResumeText [("demo", demoProvider)] "demo" "Resume" " "
      = Except.error ("Analysis failed: " ++ "Job description text cannot be empty") :=
  ⟨(analyzeResumeText_empty_inputs [("demo", demoProvider)] "demo" "   " "Job"
      demoProvider rfl rfl).1 rfl,
   (analyzeResumeText_empty_inputs [("demo", demoProvider)] "demo" "Resume" " "
      demoProvider rfl rfl).2 (by decide) rfl⟩

/-- C10: every error raised inside the registry's delegation (try) block
— the empty-input validation errors, any error thrown by the chosen
provider (including the live provider's configuration error), and, on
the file path, extraction errors — surfaces as a generic error whose
message is `Analysis failed: ` followed by the original message, while
the not-found and unavailable errors thrown before the try block keep
their original messages.  All errors are plain messages (`Except String`
models `new Error(message)`), so categories are distinguished only by
message text. -/
theorem registry_error_wrapping (services : List (String × Provider))
    (extractText : String → Except String String)
    (serviceId r j rp jp m : String) (svc : Provider)
    (env : Option String) (net : String → String → Except String String) :
    (findService services serviceId = none →
      analyzeResumeText services serviceId r j
        = Except.error ("AI service \x27" ++ serviceId ++ "\x27 not found")) ∧
    (findService services serviceId = some svc → svc.available = false →
      analyzeResumeText services serviceId r j
        = Except.error ("AI service \x27" ++ serviceId ++ "\x27 is not available")) ∧
    (findService services serviceId = some svc → svc.available = true →
      jsTrim r = "" →
      analyzeResumeText services serviceId r j
        = Except.error ("Analysis failed: " ++ "Resume text cannot be empty")) ∧
    (findService services serviceId = some svc → svc.available = true →
      jsTrim r ≠ "" → jsTrim j = "" →
      analyzeResumeText services serviceId r j
        = Except.error ("Analysis failed: " ++ "Job description text cannot be empty")) ∧
    (findService services serviceId = some svc → svc.available = true →
      jsTrim r ≠ "" → jsTrim j ≠ "" → svc.analyze r j = Except.error m →
      analyzeResumeText services serviceId r j
        = Except.error ("Analysis failed: " ++ m)) ∧
    (findService services serviceId = some svc → svc.available = true →
      jsTrim r ≠ "" → jsTrim j ≠ "" →
      svc.analyze = openaiAnalyze env net → isAvailable env = false →
      analyzeResumeText services serviceId r j
        = Except.error ("Analysis failed: "
            ++ "OpenAI service is not available. Please check API key configuration.")) ∧
    (findService services serviceId = some svc → svc.available = true →
      extractText rp = Except.error m →
      analyzeResume services extractText serviceId rp jp
        = Except.error ("Analysis failed: " ++ m)) := by
  refine ⟨?_, ?_, ?_, ?_, ?_, ?_, ?_⟩ <;> intros <;>
    simp_all [analyzeResumeText, analyzeResume, openaiAnalyze]

/-- Witness for C10: a provider failure and a pre-try not-found error at
concrete inputs. -/
theorem registry_error_wrapping_witness :
    analyzeResumeText [("demo", demoProvider)] "demo" "R" "J"
      = Except.error ("Analysis failed: " ++ "provider failure") ∧
    analyzeResumeText [("demo", demoProvider)] "other" "R" "J"
      = Except.error ("AI service \x27" ++ "other" ++ "\x27 not found") :=
  ⟨(registry_error_wrapping [("demo", demoProvider)] (fun _ => Except.error "x")
      "demo" "R" "J" "rp" "jp" "provider failure" demoProvider none
      (fun _ _ => Except.error "x")).2.2.2.2.1 rfl rfl (by decide) (by decide) rfl,
   (registry_error_wrapping [("demo", demoProvider)] (fun _ => Except.error "x")
      "other" "R" "J" "rp" "jp" "provider failure" demoProvider none
      (fun _ _ => Except.error "x")).1 rfl⟩

/-- C2: the result parser is total — for every input string it returns
an `AnalysisResult` value, and the three cases are exhaustively
characterized: when no brace-delimited region is found, or the region
fails to decode (the absorbed `JSON.parse` exception), the fallback-path
result is returned; when the region decodes, the structured-path result
is returned.  No case raises an error to the caller. -/
theorem parseAnalysisResult_total (s : String) :
    (jsonRegion s = none → parseAnalysisResult s = createFallbackResult s) ∧
    (∀ sub, jsonRegion s = some sub → jsonDecode sub = none →
      parseAnalysisResult s = createFallbackResult s) ∧
    (∀ sub parsed, jsonRegion s = some sub → jsonDecode sub = some parsed →
      parseAnalysisResult s = buildStructured parsed) := by
  refine ⟨?_, ?_, ?_⟩
  · intro h; simp [parseAnalysisResult, h]
  · intro sub h1 h2; simp [parseAnalysisResult, h1, h2]
  · intro sub parsed h1 h2; simp [parseAnalysisResult, h1, h2]

/-- Witness for C2: a brace-free raw response and an undecodable braced
region both land on the fallback path. -/
theorem parseAnalysisResult_total_witness :
    parseAnalysisResult "plain text" = createFallbackResult "plain text" ∧
    parseAnalysisResult "oops \x7bnot json\x7d"
      = createFallbackResult "oops \x7bnot json\x7d" :=
  ⟨(parseAnalysisResult_total "plain text").1 rfl,
   (parseAnalysisResult_total "oops \x7bnot json\x7d").2.1 "\x7bnot json\x7d" rfl rfl⟩

/-- C4 counterexample: the structured path does not clamp
`keywordMatch`: the decoded value 150 is returned as 150 (not 100) and
-20 is returned as -20 (not 0). -/
theorem structured_keywordMatch_unclamped_cex :
    (parseAnalysisResult "\x7b\"keywordMatch\":150\x7d").keywordMatch = 150 ∧
    (parseAnalysisResult "\x7b\"keywordMatch\":150\x7d").keywordMatch ≠ 100 ∧
    (parseAnalysisResult "\x7b\"keywordMatch\":-20\x7d").keywordMatch = -20 ∧
    (parseAnalysisResult "\x7b\"keywordMatch\":-20\x7d").keywordMatch ≠ 0 :=
  ⟨rfl, by decide, rfl, by decide⟩

/-- C4 amended: the structured path passes a numeric `keywordMatch`
through unchanged (no clamping): a decoded value of 150 yields 150 and
-20 yields -20. -/
theorem structured_keywordMatch_passthrough (parsed : Json) (kw : Int)
    (h : getField parsed "keywordMatch" = some (Json.num kw)) :
    (buildStructured parsed).keywordMatch = kw ∧
    (parseAnalysisResult "\x7b\"keywordMatch\":150\x7d").keywordMatch = 150 ∧
    (parseAnalysisResult "\x7b\"keywordMatch\":-20\x7d").keywordMatch = -20 := by
  refine ⟨?_, rfl, rfl⟩
  simp [buildStructured, getNum, h]

/-- Witness for C4's amended theorem at a concrete decoded object. -/
theorem structured_keywordMatch_passthrough_witness :
    (buildStructured (Json.obj [("keywordMatch", Json.num 7)])).keywordMatch = 7 :=
  (structured_keywordMatch_passthrough (Json.obj [("keywordMatch", Json.num 7)]) 7 rfl).1

/-- C9 counterexample: a credential variable that is present but set to
the empty string (`process.env.OPENAI_API_KEY = ""`) makes
`isAvailable()` return false, so "present" alone does not imply true. -/
theorem isAvailable_empty_credential_cex :
    isAvailable (some "") = false ∧ (some "" : Option String) ≠ none :=
  ⟨rfl, by decide⟩

/-- C9 amended: `isAvailable()` returns true iff the credential variable
is present with a non-empty value at the moment of the call (the
environment is a per-call parameter, so flipping the variable between
two calls flips the result without re-registration), and whenever it is
false, `analyze()` fails with the configuration error for every possible
network behaviour — no network call is made. -/
theorem isAvailable_characterization (env : Option String) :
    (isAvailable env = true ↔ ∃ s, env = some s ∧ s ≠ "") ∧
    (isAvailable env = false →
      ∀ (net : String → String → Except String String) (r j : String),
        openaiAnalyze env net r j = Except.error
          "OpenAI service is not available. Please check API key configuration.") := by
  constructor
  · cases env with
    | none => simp [isAvailable]
    | some s => simp [isAvailable]
  · intro h net r j
    simp [openaiAnalyze, h]

/-- Witness for C9's amended theorem: an unset variable forces the
configuration error regardless of the network stub, and a non-empty
credential flips availability to true. -/
theorem isAvailable_characterization_witness :
    openaiAnalyze none (fun _ _ => Except.ok "response") "R" "J"
      = Except.error "OpenAI service is not available. Please check API key configuration." ∧
    isAvailable (some "sk-key") = true :=
  ⟨(isAvailable_characterization none).2 rfl (fun _ _ => Except.ok "response") "R" "J",
   (isAvailable_characterization (some "sk-key")).1.mpr ⟨"sk-key", rfl, by decide⟩⟩

/-- C1 counterexample: the structured path enforces neither invariant —
a decoded response with six strengths and `keywordMatch` 150 is returned
with six strengths and 150, violating the claimed length cap and
clamp. -/
theorem analysis_invariant_cex :
    (parseAnalysisResult "\x7b\"keywordMatch\":150,\"strengths\":[\"a\",\"b\",\"c\",\"d\",\"e\",\"f\"]\x7d").strengths.length = 6 ∧
    (parseAnalysisResult "\x7b\"keywordMatch\":150,\"strengths\":[\"a\",\"b\",\"c\",\"d\",\"e\",\"f\"]\x7d").keywordMatch = 150 ∧
    ¬ ((parseAnalysisResult "\x7b\"keywordMatch\":150,\"strengths\":[\"a\",\"b\",\"c\",\"d\",\"e\",\"f\"]\x7d").strengths.length ≤ 5 ∧
       (parseAnalysisResult "\x7b\"keywordMatch\":150,\"strengths\":[\"a\",\"b\",\"c\",\"d\",\"e\",\"f\"]\x7d").keywordMatch ≤ 100) :=
  ⟨rfl, rfl, by decide⟩

/-- C1 amended: the output invariant holds on the fallback path only:
every fallback result has all four list fields of length at most 5 and a
fixed non-empty summary string, and its `keywordMatch` lies in [0,100]
whenever no literal `<digits>%` pattern occurs in the raw text (the
percent branch returns the found integer unclamped, and the structured
path enforces nothing, per the counterexample). -/
theorem fallback_invariants (s : String) :
    (createFallbackResult s).strengths.length ≤ 5 ∧
    (createFallbackResult s).improvements.length ≤ 5 ∧
    (createFallbackResult s).skillGaps.length ≤ 5 ∧
    (createFallbackResult s).recommendations.length ≤ 5 ∧
    (∃ t, (createFallbackResult s).summary = Json.str t ∧ t ≠ "") ∧
    (findPercent s.data = none →
      0 ≤ (createFallbackResult s).keywordMatch ∧
        (createFallbackResult s).keywordMatch ≤ 100) := by
  refine ⟨?_, ?_, ?_, ?_, ⟨_, rfl, by decide⟩, ?_⟩
  · simp [createFallbackResult, extractListItems, List.length_take]
  · simp [createFallbackResult, extractListItems, List.length_take]
  · simp [createFallbackResult, extractListItems, List.length_take]
  · simp [createFallbackResult, extractListItems, List.length_take]
  · intro h
    simp only [createFallbackResult, extractKeywordMatch, h]
    constructor
    · exact le_max_left _ _
    · exact max_le (by norm_num) (min_le_left _ _)

/-- Witness for C1's amended theorem at a concrete percent-free text. -/
theorem fallback_invariants_witness :
    (createFallbackResult "hello").strengths.length ≤ 5 ∧
    (0 ≤ (createFallbackResult "hello").keywordMatch ∧
      (createFallbackResult "hello").keywordMatch ≤ 100) :=
  ⟨(fallback_invariants "hello").1, (fallback_invariants "hello").2.2.2.2.2 rfl⟩

/-- C8 counterexample: the code scores word *presence*, not occurrences
— on the text "strong strong" the code adds 10 once (score 60) while
the claim's per-occurrence reading adds 10 twice (score 70). -/
theorem keywordMatch_occurrences_cex :
    extractKeywordMatch "strong strong" = 60 ∧
    claimKeywordMatch "strong strong" = 70 ∧
    extractKeywordMatch "strong strong" ≠ claimKeywordMatch "strong strong" :=
  ⟨rfl, rfl, by decide⟩

/-- Helper: a fold adding 10 per satisfied element counts the filter. -/
theorem foldl_if_add (ws : List String) (p : String → Bool) (sc : Int) :
    ws.foldl (fun sc w => if p w then sc + 10 else sc) sc
      = sc + 10 * ((ws.filter p).length : Int) := by
  induction ws generalizing sc with
  | nil => simp
  | cons w ws ih =>
    by_cases h : p w
    · simp only [List.foldl_cons, List.filter_cons, h, if_true, ih, List.length_cons]
      push_cast
      ring
    · simp [List.foldl_cons, List.filter_cons, h, ih]

/-- Helper: a fold subtracting 10 per satisfied element counts the filter. -/
theorem foldl_if_sub (ws : List String) (p : String → Bool) (sc : Int) :
    ws.foldl (fun sc w => if p w then sc - 10 else sc) sc
      = sc - 10 * ((ws.filter p).length : Int) := by
  induction ws generalizing sc with
  | nil => simp
  | cons w ws ih =>
    by_cases h : p w
    · simp only [List.foldl_cons, List.filter_cons, h, if_true, ih, List.length_cons]
      push_cast
      ring
    · simp [List.foldl_cons, List.filter_cons, h, ih]

/-- Helper: substring containment is positivity of the occurrence count. -/
theorem containsSub_iff_count (s w : String) :
    containsSub s w = true ↔ 1 ≤ countOccurrences s w := by
  unfold containsSub countOccurrences
  rw [List.any_eq_true]
  constructor
  · rintro ⟨t, ht, hp⟩
    have hm : t ∈ s.data.tails.filter (fun t => w.data.isPrefixOf t) :=
      List.mem_filter.mpr ⟨ht, hp⟩
    have := List.length_pos.mpr (List.ne_nil_of_mem hm)
    omega
  · intro h
    have hne : s.data.tails.filter (fun t => w.data.isPrefixOf t) ≠ [] := by
      intro heq; rw [heq] at h; simp at h
    obtain ⟨t, ht⟩ := List.exists_mem_of_ne_nil _ hne
    have hm := List.mem_filter.mp ht
    exact ⟨t, hm.1, hm.2⟩

/-- Helper: the Bool-level form of `containsSub_iff_count`. -/
theorem containsSub_eq_decide (s w : String) :
    containsSub s w = decide (1 ≤ countOccurrences s w) := by
  by_cases h : 1 ≤ countOccurrences s w
  · rw [decide_eq_true h]
    exact (containsSub_iff_count s w).mpr h
  · rw [decide_eq_false h]
    cases hb : containsSub s w with
    | false => rfl
    | true => exact absurd ((containsSub_iff_count s w).mp hb) h

/-- C8 amended: the fallback `keywordMatch` uses the first literal
`<digits>%` integer when present; otherwise it starts at 50, is nudged
by +10 for each positive word *present at least once* and -10 for each
negative word present at least once (presence, not per-occurrence), and
is clamped to [0,100]. -/
theorem extractKeywordMatch_amended (text : String) :
    extractKeywordMatch text = amendedKeywordMatch text := by
  unfold extractKeywordMatch amendedKeywordMatch
  rcases h : findPercent text.data with _ | n
  · simp only [h]
    rw [foldl_if_add, foldl_if_sub]
    have hpos : positiveWords.filter (fun w => containsSub (lowerStr text) w)
        = positiveWords.filter (fun w => decide (1 ≤ countOccurrences (lowerStr text) w)) :=
      List.filter_congr (fun w _ => containsSub_eq_decide (lowerStr text) w)
    have hneg : negativeWords.filter (fun w => containsSub (lowerStr text) w)
        = negativeWords.filter (fun w => decide (1 ≤ countOccurrences (lowerStr text) w)) :=
      List.filter_congr (fun w _ => containsSub_eq_decide (lowerStr text) w)
    rw [hpos, hneg]
  · simp only [h]

/-- C3: on the happy path the parser is the identity — for every raw
string in which a brace region is found and decodes to an object
carrying all seven fields with in-range values (non-empty `summary`
string, string arrays of length at most 5, numeric `keywordMatch` in
[0,100], string `optimizedContent`), the parser reproduces exactly those
seven values. -/
theorem parseAnalysisResult_happy_identity
    (s sub : String) (kvs : List (String × Json)) (sm : String)
    (st im sg rc : List Json) (kw : Int) (oc : String)
    (hregion : jsonRegion s = some sub)
    (hdecode : jsonDecode sub = some (Json.obj kvs))
    (hsm : getField (Json.obj kvs) "summary" = some (Json.str sm))
    (hsm0 : sm ≠ "")
    (hst : getField (Json.obj kvs) "strengths" = some (Json.arr st))
    (hstlen : st.length ≤ 5) (hststr : ∀ x ∈ st, ∃ t, x = Json.str t)
    (him : getField (Json.obj kvs) "improvements" = some (Json.arr im))
    (himlen : im.length ≤ 5) (himstr : ∀ x ∈ im, ∃ t, x = Json.str t)
    (hkw : getField (Json.obj kvs) "keywordMatch" = some (Json.num kw))
    (hkw0 : 0 ≤ kw) (hkw1 : kw ≤ 100)
    (hsg : getField (Json.obj kvs) "skillGaps" = some (Json.arr sg))
    (hsglen : sg.length ≤ 5) (hsgstr : ∀ x ∈ sg, ∃ t, x = Json.str t)
    (hrc : getField (Json.obj kvs) "recommendations" = some (Json.arr rc))
    (hrclen : rc.length ≤ 5) (hrcstr : ∀ x ∈ rc, ∃ t, x = Json.str t)
    (hoc : getField (Json.obj kvs) "optimizedContent" = some (Json.str oc)) :
    parseAnalysisResult s =
      { summary := Json.str sm, strengths := st, improvements := im,
        keywordMatch := kw, skillGaps := sg, recommendations := rc,
        optimizedContent := Json.str oc } := by
  have hb : parseAnalysisResult s = buildStructured (Json.obj kvs) := by
    simp [parseAnalysisResult, hregion, hdecode]
  rw [hb]
  unfold buildStructured
  rw [hsm, hst, him, hkw, hsg, hrc, hoc]
  rcases eq_or_ne oc "" with h0 | h0
  · subst h0
    simp [jsOr, getArr, getNum, truthy, hsm0]
  · simp [jsOr, getArr, getNum, truthy, hsm0, h0]

set_option maxRecDepth 8000 in
/-- Witness for C3 at a concrete fully-populated JSON response. -/
theorem parseAnalysisResult_happy_identity_witness :
    parseAnalysisResult "\x7b\"summary\":\"Good fit\",\"strengths\":[\"a\"],\"improvements\":[\"b\"],\"keywordMatch\":75,\"skillGaps\":[],\"recommendations\":[\"c\"],\"optimizedContent\":\"x\"\x7d" =
      { summary := Json.str "Good fit", strengths := [Json.str "a"],
        improvements := [Json.str "b"], keywordMatch := 75,
        skillGaps := [], recommendations := [Json.str "c"],
        optimizedContent := Json.str "x" } :=
  parseAnalysisResult_happy_identity
    "\x7b\"summary\":\"Good fit\",\"strengths\":[\"a\"],\"improvements\":[\"b\"],\"keywordMatch\":75,\"skillGaps\":[],\"recommendations\":[\"c\"],\"optimizedContent\":\"x\"\x7d"
    "\x7b\"summary\":\"Good fit\",\"strengths\":[\"a\"],\"improvements\":[\"b\"],\"keywordMatch\":75,\"skillGaps\":[],\"recommendations\":[\"c\"],\"optimizedContent\":\"x\"\x7d"
    [("summary", Json.str "Good fit"), ("strengths", Json.arr [Json.str "a"]),
     ("improvements", Json.arr [Json.str "b"]), ("keywordMatch", Json.num 75),
     ("skillGaps", Json.arr []), ("recommendations", Json.arr [Json.str "c"]),
     ("optimizedContent", Json.str "x")]
    "Good fit" [Json.str "a"] [Json.str "b"] [] [Json.str "c"] 75 "x"
    rfl rfl
    rfl (by decide)
    rfl (by decide) (by intro x hx; rw [List.mem_singleton.mp hx]; exact ⟨"a", rfl⟩)
    rfl (by decide) (by intro x hx; rw [List.mem_singleton.mp hx]; exact ⟨"b", rfl⟩)
    rfl (by decide) (by decide)
    rfl (by decide) (by intro x hx; cases hx)
    rfl (by decide) (by intro x hx; rw [List.mem_singleton.mp hx]; exact ⟨"c", rfl⟩)
    rfl

/-- C7 counterexample: an item line that itself contains the topical
keyword is treated as a keyword line and skipped (`continue`), not
collected — the text `"Strengths:\n- strengths of A\n- b\n- c\n\n"`
matches the claim's shape (header, three `"- "` lines, blank line) yet
yields only two strengths, not the claimed three. -/
theorem fallback_strengths_cex :
    (createFallbackResult "Strengths:\n- strengths of A\n- b\n- c\n\n").strengths
      = [Json.str "b", Json.str "c"] ∧
    (createFallbackResult "Strengths:\n- strengths of A\n- b\n- c\n\n").strengths.length ≠ 3 :=
  ⟨rfl, by decide⟩

/-- Helper: lines before the first keyword line are skipped while not
capturing. -/
theorem extractLoop_skip (kw : String) (pre rest : List String) (items : List String)
    (h : ∀ l ∈ pre, containsSub (lowerStr l) kw = false) :
    extractLoop kw (pre ++ rest) false items = extractLoop kw rest false items := by
  induction pre with
  | nil => rfl
  | cons l ls ih =>
    have h0 := h l (by simp)
    have ih' := ih (fun x hx => h x (by simp [hx]))
    simpa [extractLoop, h0] using ih'

/-- Helper: a keyword line turns capturing on and is itself skipped. -/
theorem extractLoop_keyword (kw line : String) (rest : List String) (b : Bool)
    (items : List String) (h : containsSub (lowerStr line) kw = true) :
    extractLoop kw (line :: rest) b items = extractLoop kw rest true items := by
  simp [extractLoop, h]

/-- Helper: while capturing, an item-shaped line is pushed stripped. -/
theorem extractLoop_push (kw line x : String) (rest : List String) (items : List String)
    (h1 : containsSub (lowerStr line) kw = false)
    (h2 : isItemStart (jsTrim line) = true)
    (h3 : stripMarker (jsTrim line) = x) :
    extractLoop kw (line :: rest) true items = extractLoop kw rest true (items ++ [x]) := by
  simp [extractLoop, h1, h2, h3]

/-- Helper: while capturing, a blank line breaks with the items so far. -/
theorem extractLoop_blank (kw line : String) (rest : List String) (items : List String)
    (h1 : containsSub (lowerStr line) kw = false)
    (h2 : isItemStart (jsTrim line) = false)
    (h3 : (jsTrim line).length = 0) :
    extractLoop kw (line :: rest) true items = items := by
  simp [extractLoop, h1, h2, h3]

/-- Helper: a line of the form `"- X"` passes the item-shape test. -/
theorem isItemStart_dash (x : String) : isItemStart ("- " ++ x) = true := by
  unfold isItemStart jsStartsWith
  rw [String.data_append]
  have h1 : ("-" : String).data = ['-'] := rfl
  have h2 : ("- " : String).data = ['-', ' '] := rfl
  rw [h1, h2]
  simp [List.isPrefixOf]

/-- C7 amended: for every raw text whose line decomposition is some
keyword-free prefix, then the line `"Strengths:"`, then three lines
`"- X"` whose contents do not contain `"strength"` case-insensitively,
do not end in whitespace and do not begin with marker-like characters
(digits, dots, dashes, bullets or whitespace — the strip regex consumes
those too), then a blank line, the fallback path extracts exactly those
three contents, in order, as `strengths`. -/
theorem fallback_strengths_amended (text : String) (pre rest : List String)
    (a b c : String)
    (hsplit : splitLines text
      = pre ++ (["Strengths:", "- " ++ a, "- " ++ b, "- " ++ c, ""] ++ rest))
    (hpre : ∀ l ∈ pre, containsSub (lowerStr l) "strength" = false)
    (hka : containsSub (lowerStr ("- " ++ a)) "strength" = false)
    (hta : jsTrim ("- " ++ a) = "- " ++ a) (hsa : stripMarker ("- " ++ a) = a)
    (hkb : containsSub (lowerStr ("- " ++ b)) "strength" = false)
    (htb : jsTrim ("- " ++ b) = "- " ++ b) (hsb : stripMarker ("- " ++ b) = b)
    (hkc : containsSub (lowerStr ("- " ++ c)) "strength" = false)
    (htc : jsTrim ("- " ++ c) = "- " ++ c) (hsc : stripMarker ("- " ++ c) = c) :
    (createFallbackResult text).strengths = [Json.str a, Json.str b, Json.str c] := by
  have hloop : extractLoop "strength" (splitLines text) false [] = [a, b, c] := by
    rw [hsplit, extractLoop_skip "strength" pre _ [] hpre]
    simp only [List.cons_append, List.nil_append]
    rw [extractLoop_keyword "strength" "Strengths:" _ false [] rfl]
    rw [extractLoop_push "strength" ("- " ++ a) a _ [] hka
      (by rw [hta]; exact isItemStart_dash a) (by rw [hta]; exact hsa)]
    rw [extractLoop_push "strength" ("- " ++ b) b _ _ hkb
      (by rw [htb]; exact isItemStart_dash b) (by rw [htb]; exact hsb)]
    rw [extractLoop_push "strength" ("- " ++ c) c _ _ hkc
      (by rw [htc]; exact isItemStart_dash c) (by rw [htc]; exact hsc)]
    rw [extractLoop_blank "strength" "" _ _ rfl rfl rfl]
    simp
  simp only [createFallbackResult]
  unfold extractListItems
  rw [hloop]
  rfl

/-- Witness for C7's amended theorem at a concrete three-item text. -/
theorem fallback_strengths_amended_witness :
    (createFallbackResult "Intro\nStrengths:\n- alpha\n- beta\n- gamma\n\ntail").strengths
      = [Json.str "alpha", Json.str "beta", Json.str "gamma"] :=
  fallback_strengths_amended
    "Intro\nStrengths:\n- alpha\n- beta\n- gamma\n\ntail"
    ["Intro"] ["tail"] "alpha" "beta" "gamma"
    rfl
    (by intro l hl; rw [List.mem_singleton.mp hl]; rfl)
    rfl rfl rfl rfl rfl rfl rfl rfl rfl
